import Mathlib

/-!
Verification of the GymBro turn-dispatch orchestrator.

Shallow embedding of the repository's core logic:
  * `src/agent/graph.py`   — routing, chat node, inference client, attribute extractor
  * `src/agent/prompts.py` — the system prompt text
  * `src/agent/state.py`   — the agent state schema
  * `src/app.py`           — the console loop's fitness-attribute update
  * `src/tools/progress_report.py` — the progress-report tool

The inference endpoint (an external HTTP service) is modelled as an oracle
function from the request payload to either a transport error or a list of
streamed lines; `json.loads` on a stream line is modelled by an inductive
line type (empty / malformed / parsed chunk), since a non-parseable line
makes `json.loads` raise.  Python exceptions are modelled with `Except`.
-/

namespace GymBro

/-- A conversation message, mirroring the four langchain message classes used
by the source (`SystemMessage`, `HumanMessage`, `AIMessage`, `ToolMessage`);
tool messages carry their `tool_call_id`. -/
inductive Msg
  | system (content : String)
  | human (content : String)
  | ai (content : String)
  | tool (content : String) (tool_call_id : String)
  deriving DecidableEq, Repr

/-- Lower-case an ASCII letter (model of Python `str.lower` per character; the
source only matches ASCII keywords). -/
def charLower (c : Char) : Char :=
  if 65 ≤ c.toNat ∧ c.toNat ≤ 90 then Char.ofNat (c.toNat + 32) else c

/-- Model of Python's `str.lower()`. -/
def pyLower (s : String) : String := ⟨s.data.map charLower⟩

/-- ASCII whitespace, as stripped by Python's `str.strip()`. -/
def isSpaceChar (c : Char) : Bool := c == ' ' || c == '\t' || c == '\n' || c == '\r'

def dropLeadingSpaces : List Char → List Char
  | [] => []
  | c :: cs => if isSpaceChar c then dropLeadingSpaces cs else c :: cs

/-- Model of Python's `str.strip()` (ASCII whitespace). -/
def pyStrip (s : String) : String :=
  ⟨dropLeadingSpaces (dropLeadingSpaces s.data.reverse).reverse⟩

/-- Python string truthiness: the empty string is falsy. -/
def pyIsEmptyStr (s : String) : Bool := s.data.isEmpty

/-- Model of Python's `"".join(parts)`. -/
def pyJoin (parts : List String) : String := ⟨(parts.map String.data).flatten⟩

/-- Does the character list `needle` start the character list `haystack`? -/
def listStartsWith : List Char → List Char → Bool
  | [], _ => true
  | _ :: _, [] => false
  | a :: as, b :: bs => a == b && listStartsWith as bs

/-- Model of Python's substring test `needle in haystack`. -/
def strContains (haystack needle : String) : Bool :=
  let h := haystack.toList
  (List.range (h.length + 1)).any fun i => listStartsWith needle.toList (h.drop i)

/-- Python's `s or default` on strings: the default replaces the empty (falsy) string. -/
def pyOrStr (s default : String) : String :=
  if pyIsEmptyStr s then default else s

/-- Python's `opt or default` where `opt` may be `None` or an empty (falsy) string. -/
def pyOrOpt (a : Option String) (default : String) : String :=
  match a with
  | some s => if pyIsEmptyStr s then default else s
  | none => default

/-- `messages[-n:]` — the last `n` elements (the whole list when shorter).
CPython's `[-0:]` is the same slice as `[0:]`, the entire list, so at `n = 0`
the window is a no-op rather than empty. -/
def lastN (n : Nat) (xs : List α) : List α :=
  if n = 0 then xs else xs.drop (xs.length - n)

/-- The agent state schema of `src/agent/state.py` (the transient `route` key is
produced by `route_node` and modelled as that node's return value). -/
structure AgentState where
  messages : List Msg
  fitness_level : String
  fitness_goals : String
  deriving DecidableEq, Repr

def isHumanMsg : Msg → Bool
  | .human _ => true
  | _ => false

def isSystemMsg : Msg → Bool
  | .system _ => true
  | _ => false

def isToolMsg : Msg → Bool
  | .tool _ _ => true
  | _ => false

/-- Helper for `_latest_user_text`: scan an already-reversed message list for
the first `HumanMessage` and return its stripped content. -/
def latestUserTextRev : List Msg → String
  | [] => ""
  | .human c :: _ => pyStrip c
  | _ :: rest => latestUserTextRev rest

/-- `_latest_user_text` of `src/agent/graph.py` (lines 226-230): the most
recent `HumanMessage` content, stripped; `""` when there is none. -/
def latest_user_text (messages : List Msg) : String :=
  latestUserTextRev messages.reverse

/-- The workout-plan keyword list of `route_node` / `chat_node`. -/
def workoutKeywords : List String :=
  ["workout plan", "routine", "workout routine", "training plan", "program"]

/-- The progress keyword list of `route_node` / `chat_node`. -/
def progressKeywords : List String :=
  ["progress", "report", "csv", "track"]

/-- `any(kw in text for kw in kws)`. -/
def containsAnyKeyword (text : String) (kws : List String) : Bool :=
  kws.any fun kw => strContains text kw

/-- `route_node` of `src/agent/graph.py` (lines 232-242); it returns the value
stored under the `route` key of the update dict. -/
def route_node (native_tool_calling : Bool) (state : AgentState) : String :=
  if native_tool_calling then "chat"
  else
    let user_text := pyLower (latest_user_text state.messages)
    if containsAnyKeyword user_text workoutKeywords then "workout_tool"
    else if containsAnyKeyword user_text progressKeywords then "progress_tool"
    else "chat"

/-! ### Attribute extractor (`extract_fitness_info`, graph.py lines 355-389) -/

/-- One iteration of the `for msg in messages[-5:]` loop of
`extract_fitness_info`: non-`HumanMessage` entries leave the accumulated
`(fitness_level, fitness_goals)` pair unchanged, and for a user message the
two `if`/`elif` chains run on the lower-cased content. -/
def extractStep (acc : String × String) (msg : Msg) : String × String :=
  match msg with
  | .human content =>
      let c := pyLower content
      let lvl :=
        if strContains c "beginner" then "beginner"
        else if strContains c "intermediate" then "intermediate"
        else if strContains c "advanced" then "advanced"
        else acc.1
      let gls :=
        if strContains c "muscle" || strContains c "strength" then "build muscle"
        else if strContains c "weight" || strContains c "lose" || strContains c "fat" then
          "lose weight"
        else if strContains c "endurance" || strContains c "cardio" then "improve endurance"
        else acc.2
      (lvl, gls)
  | _ => acc

/-- The 5-message window `messages[-5:]` examined by `extract_fitness_info`. -/
def extractWindow (messages : List Msg) : List Msg := lastN 5 messages

/-- `extract_fitness_info` of `src/agent/graph.py` (lines 355-389): fold the
keyword scan over the last 5 messages starting from empty strings, then apply
the final `fitness_level or "intermediate"` / `fitness_goals or "general
fitness"` defaults. -/
def extract_fitness_info (messages : List Msg) : String × String :=
  let r := (extractWindow messages).foldl extractStep ("", "")
  (pyOrStr r.1 "intermediate", pyOrStr r.2 "general fitness")

/-- The fitness-attribute update of the console loop, `src/app.py` lines
71-76: run the extractor over the conversation and overwrite the loop's
current values whenever the extracted components are truthy (non-empty). -/
def appUpdateFitness (fitness_level fitness_goals : String) (messages : List Msg) :
    String × String :=
  let updated := extract_fitness_info messages
  (if pyIsEmptyStr updated.1 then fitness_level else updated.1,
   if pyIsEmptyStr updated.2 then fitness_goals else updated.2)

/-- The three level keywords scanned by `extract_fitness_info`. -/
def levelKeywords : List String := ["beginner", "intermediate", "advanced"]

/-- The seven goal keywords scanned by `extract_fitness_info`. -/
def goalKeywords : List String :=
  ["muscle", "strength", "weight", "lose", "fat", "endurance", "cardio"]

/-- A message is neutral for the extractor when it is not a user message, or
its lower-cased content contains no level keyword and no goal keyword. -/
def msgHasNoFitnessKeyword : Msg → Bool
  | .human c =>
      !(containsAnyKeyword (pyLower c) levelKeywords)
        && !(containsAnyKeyword (pyLower c) goalKeywords)
  | _ => true

/-! ### Inference client (`_ollama_chat` / `_ollama_chat_with_tools`, graph.py) -/

/-- Python exceptions that can escape the embedded code: a transport/endpoint
error from `requests.post` / `raise_for_status` (the spec's
`InferenceFailure`), or the `json.loads` error raised on a non-parseable
stream line. -/
inductive Err
  | inferenceFailure (cause : String)
  | jsonDecodeError (line : String)
  deriving DecidableEq, Repr

/-- The `arguments` field of a tool-call directive: either a JSON object of
string-valued fields (absent arguments are `obj []`, since the source applies
`or {}`), or a string-encoded payload still to be decoded. -/
inductive ArgPayload
  | obj (pairs : List (String × String))
  | raw (s : String)
  deriving DecidableEq, Repr

/-- A tool-call directive as found in a stream chunk's
`message.tool_calls` entry: `call.get("id", "")` stringified, the
`function.name` field (possibly absent) and the argument payload. -/
structure ToolCall where
  id : String
  fnName : Option String
  args : ArgPayload
  deriving DecidableEq, Repr

/-- A parsed stream chunk `{message: {content?, tool_calls?}, done?}`. -/
structure StreamChunk where
  content : Option String := none
  tool_calls : Option (List ToolCall) := none
  done : Bool := false
  deriving DecidableEq, Repr

/-- One line of the newline-delimited streamed response body: falsy (empty),
non-parseable (`json.loads` raises), or a parsed chunk. -/
inductive StreamLine
  | empty
  | malformed (rawLine : String)
  | parsed (c : StreamChunk)
  deriving DecidableEq, Repr

/-- The `for line in resp.iter_lines(...)` loop of `_ollama_chat` (graph.py
lines 143-160): skip falsy lines, `json.loads` each remaining line (raising on
a malformed one), append truthy `message.content` fragments, stop on
`done: true`; finally `"".join(parts).strip()`. -/
def consumeChatLines : List StreamLine → List String → Except Err String
  | [], parts => .ok (pyStrip (pyJoin parts))
  | .empty :: rest, parts => consumeChatLines rest parts
  | .malformed rawLine :: _, _ => .error (.jsonDecodeError rawLine)
  | .parsed c :: rest, parts =>
    let parts :=
      match c.content with
      | some s => if pyIsEmptyStr s then parts else parts ++ [s]
      | none => parts
    if c.done then .ok (pyStrip (pyJoin parts))
    else consumeChatLines rest parts

/-- Python's `if tool_calls:` / `if msg.get("tool_calls"):` truthiness:
present and non-empty. -/
def toolCallsTruthy : Option (List ToolCall) → Bool
  | some (_ :: _) => true
  | _ => false

/-- The stream loop of `_ollama_chat_with_tools` (graph.py lines 202-221):
as `consumeChatLines`, but also recording the last truthy `tool_calls`
payload observed. -/
def consumeToolLines : List StreamLine → List String → Option (List ToolCall) →
    Except Err (String × Option (List ToolCall))
  | [], parts, tc => .ok (pyStrip (pyJoin parts), tc)
  | .empty :: rest, parts, tc => consumeToolLines rest parts tc
  | .malformed rawLine :: _, _, _ => .error (.jsonDecodeError rawLine)
  | .parsed c :: rest, parts, tc =>
    let parts :=
      match c.content with
      | some s => if pyIsEmptyStr s then parts else parts ++ [s]
      | none => parts
    let tc := if toolCallsTruthy c.tool_calls then c.tool_calls else tc
    if c.done then .ok (pyStrip (pyJoin parts), tc)
    else consumeToolLines rest parts tc

/-- One `{role, content}` entry of the request payload's `messages` list (the
other payload fields — model name, `stream`, sampling options, and the fixed
tool schemas in the tools variant — are constants irrelevant to the claims). -/
structure PayloadMsg where
  role : String
  content : String
  deriving DecidableEq, Repr

/-- The `isinstance` chain mapping message classes to wire roles
(graph.py lines 111-120; our message type is closed, so the defaulting
`else: role = "user"` branch is unreachable). -/
def roleOf : Msg → String
  | .system _ => "system"
  | .human _ => "user"
  | .ai _ => "assistant"
  | .tool _ _ => "tool"

def contentOf : Msg → String
  | .system c => c
  | .human c => c
  | .ai c => c
  | .tool c _ => c

/-- The request `messages` payload built by both client functions: window to
the last `max_context_messages` entries (`messages[-max_context_messages:]`),
then map each message to its `{role, content}` dict. -/
def buildPayloadMessages (maxCtx : Nat) (messages : List Msg) : List PayloadMsg :=
  (lastN maxCtx messages).map fun m => ⟨roleOf m, contentOf m⟩

/-- The inference endpoint, modelled as an oracle: given whether tool schemas
are attached and the request `messages` payload, it either fails at the
transport level or yields the streamed response lines. -/
abbrev Oracle := Bool → List PayloadMsg → Except Err (List StreamLine)

/-- A record of one request issued to the endpoint: whether tool schemas were
attached, and the `messages` payload sent. -/
structure InferenceCall where
  withTools : Bool
  payload : List PayloadMsg
  deriving DecidableEq, Repr

/-- `_ollama_chat` (graph.py lines 107-160): build the windowed payload, issue
the request, consume the stream; also report the request made. -/
def ollama_chat (maxCtx : Nat) (oracle : Oracle) (messages : List Msg) :
    Except Err String × InferenceCall :=
  let req : InferenceCall := ⟨false, buildPayloadMessages maxCtx messages⟩
  match oracle false req.payload with
  | .error e => (.error e, req)
  | .ok lines => (consumeChatLines lines [], req)

/-- `_ollama_chat_with_tools` (graph.py lines 162-221): as `ollama_chat` but
with the tool schemas attached and the last tool-call payload reported. -/
def ollama_chat_with_tools (maxCtx : Nat) (oracle : Oracle) (messages : List Msg) :
    Except Err (String × Option (List ToolCall)) × InferenceCall :=
  let req : InferenceCall := ⟨true, buildPayloadMessages maxCtx messages⟩
  match oracle true req.payload with
  | .error e => (.error e, req)
  | .ok lines => (consumeToolLines lines [] none, req)

/-! ### Tools (`src/tools/progress_report.py`; the workout tool modelled from the spec) -/

/-- A generated output file: its path and the rows written. -/
structure FileWrite where
  path : String
  rows : List (List String)
  deriving DecidableEq, Repr

/-- The result dict of `generate_progress_report`. -/
structure ProgressResult where
  status : String
  message : String
  file_path : String
  records : Nat
  deriving DecidableEq, Repr

/-- `_create_sample_progress_data` of `src/tools/progress_report.py`
(lines 42-61): the six fixed `(Exercise, Value)` records. -/
def create_sample_progress_data : List (String × String) :=
  [("Push-ups", "25"), ("Leg Raises", "7"), ("Cardio", "45 min"),
   ("Squats", "20"), ("Pull-ups", "8"), ("Plank", "60 sec")]

/-- `generate_progress_report` of `src/tools/progress_report.py`
(lines 14-39): write a CSV (`DictWriter` with field names `Exercise,Value`:
one header row, then one row per record) to the fixed path and return the
result dict; the file write is modelled as the returned `FileWrite`. -/
def generate_progress_report : ProgressResult × FileWrite :=
  let output_path := "outputs/progress_report.csv"
  let progress_data := create_sample_progress_data
  (⟨"success",
    "Progress report generated successfully and saved to " ++ output_path,
    output_path,
    progress_data.length⟩,
   ⟨output_path, ["Exercise", "Value"] :: progress_data.map fun r => [r.1, r.2]⟩)

/-- The result of the workout-plan tool (message and written file path). -/
structure WorkoutResult where
  message : String
  file_path : String
  deriving DecidableEq, Repr

/-- Modelled from the spec: `src/tools/workout_plan.py` is not present under
`src/` (only its caller `src/agent/graph.py` is).  Per the spec (§2, §4.2,
§6) the workout tool writes a canned multi-day plan as plain text to the
fixed path `outputs/workout_plan.txt` and returns a result whose `message` is
a human-readable success summary; the exact message text is not given by the
spec, so this model uses a fixed summary naming the path.  The claims below
use the message only opaquely. -/
def generate_workout_plan_func (fitness_level fitness_goals : String) : WorkoutResult :=
  let _ := (fitness_level, fitness_goals)
  ⟨"Workout plan generated successfully and saved to outputs/workout_plan.txt",
   "outputs/workout_plan.txt"⟩

/-! ### The chat node (`chat_node`, graph.py lines 244-308) -/

/-- The system prompt of `src/agent/prompts.py`. -/
def SYSTEM_PROMPT : String :=
  "You are Gymbro, a supportive AI fitness coach.\n\nGoals:\n- Help users improve fitness through clear, practical advice.\n- Ask about fitness level and goals if unknown.\n- Be concise, encouraging, and actionable.\n\nTools:\n- generate_workout_plan: Use ONLY when the user asks for a workout plan or routine.\n- generate_progress_report: Use ONLY when the user asks for progress or tracking.\n\nRules:\n- Do not use tools unless explicitly requested.\n- Remember user fitness level and goals from the conversation.\n"

/-- The system message content built by `chat_node` (graph.py lines 247-252):
base prompt, length constraint, then the session's fitness attributes when
truthy. -/
def system_content (state : AgentState) : String :=
  let c := SYSTEM_PROMPT
    ++ "\n\nKeep responses concise: 3-6 sentences unless the user asks for more detail."
  let c := if pyIsEmptyStr state.fitness_level then c
    else c ++ "\n\nCurrent user fitness level: " ++ state.fitness_level
  if pyIsEmptyStr state.fitness_goals then c
  else c ++ "\nCurrent user fitness goals: " ++ state.fitness_goals

/-- `messages = [SystemMessage(content=system_content)] + messages`
(graph.py line 254). -/
def chatMsgs (state : AgentState) : List Msg :=
  .system (system_content state) :: state.messages

/-- `args.get(key)` on a decoded argument object. -/
def lookupArg (pairs : List (String × String)) (key : String) : Option String :=
  (pairs.find? fun p => p.1 == key).map fun p => p.2

/-- A decoder for string-encoded argument payloads, standing for `json.loads`
restricted to JSON objects of string fields (`none` = the decode raised). -/
abbrev ArgDecoder := String → Option (List (String × String))

/-- The argument coercion of graph.py lines 266-274: an object is used as is
(absent arguments were already defaulted to `{}`), a string payload is decoded
with `json.loads`, falling back to `{}` when that raises. -/
def decodedArgs (decodeArgs : ArgDecoder) : ArgPayload → List (String × String)
  | .obj pairs => pairs
  | .raw s => (decodeArgs s).getD []

/-- One iteration of the `for call in tool_calls` loop (graph.py lines
264-283): resolve the function name; a registered name executes the tool and
yields a `ToolMessage` carrying the result message and the originating call
id; an unknown or absent name yields nothing. -/
def runToolCall (state : AgentState) (decodeArgs : ArgDecoder) (call : ToolCall) :
    Option Msg :=
  let args := decodedArgs decodeArgs call.args
  match call.fnName with
  | some fn =>
    if fn == "generate_workout_plan" then
      let level := pyOrOpt (lookupArg args "fitness_level")
        (pyOrStr state.fitness_level "intermediate")
      let goals := pyOrOpt (lookupArg args "fitness_goals")
        (pyOrStr state.fitness_goals "general fitness")
      some (.tool (generate_workout_plan_func level goals).message call.id)
    else if fn == "generate_progress_report" then
      some (.tool generate_progress_report.1.message call.id)
    else none
  | none => none

/-- The keyword fall-through of `chat_node` (graph.py lines 293-303), reached
in native mode when no tool executed: dispatch on the lexical cues of the
latest user text, else reply with the model's own text. -/
def keywordDispatch (state : AgentState) (user_text content : String) : List Msg :=
  if containsAnyKeyword user_text workoutKeywords then
    [.ai (generate_workout_plan_func
      (pyOrStr state.fitness_level "intermediate")
      (pyOrStr state.fitness_goals "general fitness")).message]
  else if containsAnyKeyword user_text progressKeywords then
    [.ai generate_progress_report.1.message]
  else [.ai content]

/-- The body of `chat_node`'s `try:` block in native mode (graph.py lines
259-303): query with tool schemas; on a truthy tool-call payload execute each
directive in order; if any tool executed, re-query without schemas over the
original messages plus the model's own truthy text plus the tool messages and
return the tool messages followed by the follow-up reply; otherwise fall
through to keyword dispatch.  Returns the produced messages (or the escaping
exception) together with the list of requests issued. -/
def native_path (maxCtx : Nat) (oracle : Oracle) (decodeArgs : ArgDecoder)
    (state : AgentState) (msgs : List Msg) (user_text : String) :
    Except Err (List Msg) × List InferenceCall :=
  let r1 := ollama_chat_with_tools maxCtx oracle msgs
  match r1.1 with
  | .error e => (.error e, [r1.2])
  | .ok (content, tool_calls) =>
    if toolCallsTruthy tool_calls then
      let calls := tool_calls.getD []
      let out_messages := calls.filterMap (runToolCall state decodeArgs)
      if out_messages.isEmpty then
        (.ok (keywordDispatch state user_text content), [r1.2])
      else
        let followup_messages :=
          msgs ++ (if pyIsEmptyStr content then [] else [.ai content]) ++ out_messages
        let r2 := ollama_chat maxCtx oracle followup_messages
        match r2.1 with
        | .error e => (.error e, [r1.2, r2.2])
        | .ok final => (.ok (out_messages ++ [.ai final]), [r1.2, r2.2])
    else
      (.ok (keywordDispatch state user_text content), [r1.2])

instance {ε α : Type} [DecidableEq ε] [DecidableEq α] : DecidableEq (Except ε α) := fun x y =>
  match x, y with
  | .error a, .error b =>
    if h : a = b then isTrue (congrArg Except.error h)
    else isFalse fun hc => h (Except.error.inj hc)
  | .ok a, .ok b =>
    if h : a = b then isTrue (congrArg Except.ok h)
    else isFalse fun hc => h (Except.ok.inj hc)
  | .error _, .ok _ => isFalse fun hc => Except.noConfusion hc
  | .ok _, .error _ => isFalse fun hc => Except.noConfusion hc

/-- The outcome of one `chat_node` invocation: the messages of the returned
update dict (or the escaping exception), and the requests issued to the
inference endpoint, in order. -/
structure TurnOut where
  result : Except Err (List Msg)
  calls : List InferenceCall
  deriving DecidableEq, Repr

/-- `chat_node` of `src/agent/graph.py` (lines 244-308): build the fresh
system message in front of the history; in native mode run the tool-calling
path and, should any exception escape it (`except Exception: pass`), fall back
to a plain chat call; in keyword mode (and as that fallback) issue a single
tool-schema-less chat call whose reply becomes the assistant message. -/
def chat_node (maxCtx : Nat) (native_tool_calling : Bool) (oracle : Oracle)
    (decodeArgs : ArgDecoder) (state : AgentState) : TurnOut :=
  let msgs := chatMsgs state
  let user_text := pyLower (latest_user_text state.messages)
  if native_tool_calling then
    let np := native_path maxCtx oracle decodeArgs state msgs user_text
    match np.1 with
    | .ok out => ⟨.ok out, np.2⟩
    | .error _ =>
      let fb := ollama_chat maxCtx oracle msgs
      ⟨fb.1.map fun content => [.ai content], np.2 ++ [fb.2]⟩
  else
    let fb := ollama_chat maxCtx oracle msgs
    ⟨fb.1.map fun content => [.ai content], [fb.2]⟩

/-- One orchestrator turn through the chat node, at the session level: on
success LangGraph's `add_messages` reducer appends the returned messages to
the history; an escaping exception propagates and applies no update. -/
def applyChatTurn (maxCtx : Nat) (native_tool_calling : Bool) (oracle : Oracle)
    (decodeArgs : ArgDecoder) (state : AgentState) : Except Err AgentState :=
  (chat_node maxCtx native_tool_calling oracle decodeArgs state).result.map fun out =>
    { state with messages := state.messages ++ out }

/-! ## Helper lemmas -/

theorem extractStep_non_human (acc : String × String) (m : Msg)
    (h : isHumanMsg m = false) : extractStep acc m = acc := by
  cases m <;> simp_all [extractStep, isHumanMsg]

theorem foldl_extractStep_filter (l : List Msg) (acc : String × String) :
    l.foldl extractStep acc = (l.filter isHumanMsg).foldl extractStep acc := by
  induction l generalizing acc with
  | nil => rfl
  | cons m rest ih =>
    cases hm : isHumanMsg m with
    | false =>
      rw [List.foldl_cons, extractStep_non_human acc m hm, List.filter_cons_of_neg (by simp [hm])]
      exact ih acc
    | true =>
      rw [List.foldl_cons, List.filter_cons_of_pos hm, List.foldl_cons]
      exact ih (extractStep acc m)

theorem extractStep_no_keyword (acc : String × String) (m : Msg)
    (h : msgHasNoFitnessKeyword m = true) : extractStep acc m = acc := by
  cases m with
  | human c =>
    simp only [msgHasNoFitnessKeyword, containsAnyKeyword, levelKeywords, goalKeywords,
      List.any_cons, List.any_nil, Bool.and_eq_true, Bool.not_eq_true',
      Bool.or_eq_false_iff] at h
    obtain ⟨⟨h1, h2, h3, -⟩, h4, h5, h6, h7, h8, h9, h10, -⟩ := h
    simp [extractStep, h1, h2, h3, h4, h5, h6, h7, h8, h9, h10]
  | system c => rfl
  | ai c => rfl
  | tool c i => rfl

theorem foldl_extractStep_no_keyword (l : List Msg) (acc : String × String)
    (h : l.all msgHasNoFitnessKeyword = true) : l.foldl extractStep acc = acc := by
  induction l generalizing acc with
  | nil => rfl
  | cons m rest ih =>
    rw [List.all_cons, Bool.and_eq_true] at h
    rw [List.foldl_cons, extractStep_no_keyword acc m h.1]
    exact ih acc h.2

/-! ## Claim theorems -/

/-- Claim C9: every invocation of `generate_progress_report` writes a CSV file
at the fixed path `outputs/progress_report.csv` containing exactly one header
row with column order `Exercise,Value` followed by exactly 6 data rows, and
returns a result whose record count equals 6. -/
theorem progress_report_fixed_file_and_records :
    generate_progress_report.2.path = "outputs/progress_report.csv"
    ∧ generate_progress_report.2.rows.head? = some ["Exercise", "Value"]
    ∧ generate_progress_report.2.rows.length = 7
    ∧ generate_progress_report.2.rows.tail.length = 6
    ∧ (generate_progress_report.2.rows.tail.filter fun row => row.length == 2).length = 6
    ∧ generate_progress_report.1.records = 6
    ∧ generate_progress_report.1.file_path = "outputs/progress_report.csv"
    ∧ generate_progress_report.1.status = "success" := by
  decide

/-- Claim C4: `route_node` in keyword mode performs a case-insensitive
substring match over the latest user text: a workout keyword yields the
workout tool (checked first, so it wins over progress keywords), a progress
keyword with no workout keyword yields the progress tool, and text with
neither keyword — in particular empty or whitespace-only input, whose latest
user text is `""` — yields direct chat.  The function is total, hence pure
and never failing. -/
theorem route_node_keyword_classification (state : AgentState) :
    (containsAnyKeyword (pyLower (latest_user_text state.messages)) workoutKeywords = true →
      route_node false state = "workout_tool")
    ∧ (containsAnyKeyword (pyLower (latest_user_text state.messages)) workoutKeywords = false →
        containsAnyKeyword (pyLower (latest_user_text state.messages)) progressKeywords = true →
      route_node false state = "progress_tool")
    ∧ (containsAnyKeyword (pyLower (latest_user_text state.messages)) workoutKeywords = false →
        containsAnyKeyword (pyLower (latest_user_text state.messages)) progressKeywords = false →
      route_node false state = "chat")
    ∧ (latest_user_text state.messages = "" → route_node false state = "chat") := by
  refine ⟨fun h => ?_, fun h1 h2 => ?_, fun h1 h2 => ?_, fun h => ?_⟩
  · simp [route_node, h]
  · simp [route_node, h1, h2]
  · simp [route_node, h1, h2]
  · have h0 : pyLower (latest_user_text state.messages) = "" := by rw [h]; rfl
    simp only [route_node, h0]
    decide

/-- Claim C4 witness: concrete inputs exercising the three routes and the
empty-input edge case. -/
theorem route_node_keyword_classification_witness :
    route_node false ⟨[Msg.human "Can you give me a workout ROUTINE?"], "", ""⟩ = "workout_tool"
    ∧ route_node false ⟨[Msg.human "show my Progress please"], "", ""⟩ = "progress_tool"
    ∧ route_node false ⟨[Msg.human "hello coach"], "", ""⟩ = "chat"
    ∧ route_node false ⟨[Msg.human "   "], "", ""⟩ = "chat" :=
  ⟨(route_node_keyword_classification _).1 (by decide),
   (route_node_keyword_classification _).2.1 (by decide) (by decide),
   (route_node_keyword_classification _).2.2.1 (by decide) (by decide),
   (route_node_keyword_classification _).2.2.2 (by decide)⟩

/-- Claim C1 counterexample: with caller-supplied current values
`("beginner", "build muscle")` and a message window containing no level or
goal keyword, `extract_fitness_info` does not return the caller's values
unchanged — it returns the fixed defaults, and the console loop's update then
resets the previously extracted attributes to those defaults. -/
theorem extract_resets_to_defaults_counterexample :
    extract_fitness_info [Msg.human "hi there"] = ("intermediate", "general fitness")
    ∧ appUpdateFitness "beginner" "build muscle" [Msg.human "hi there"]
        = ("intermediate", "general fitness")
    ∧ appUpdateFitness "beginner" "build muscle" [Msg.human "hi there"]
        ≠ ("beginner", "build muscle") := by
  decide

/-- Claim C1 amended: when no user message in the 5-message window contains a
level or goal keyword, `extract_fitness_info` returns the fixed defaults
`("intermediate", "general fitness")` — not the caller-supplied current
values — and, because both components are non-empty (truthy), the console
loop of `src/app.py` overwrites the previously extracted attributes with
those defaults.  The attributes are thus reset to the defaults (never to
empty) whenever the keywords scroll out of the window. -/
theorem extract_no_keyword_yields_fixed_defaults (messages : List Msg)
    (h : (extractWindow messages).all msgHasNoFitnessKeyword = true) :
    extract_fitness_info messages = ("intermediate", "general fitness")
    ∧ ∀ fitness_level fitness_goals : String,
        appUpdateFitness fitness_level fitness_goals messages
          = ("intermediate", "general fitness") := by
  have hfold : (extractWindow messages).foldl extractStep ("", "") = ("", "") :=
    foldl_extractStep_no_keyword _ _ h
  have hmain : extract_fitness_info messages = ("intermediate", "general fitness") := by
    simp [extract_fitness_info, hfold, pyOrStr, pyIsEmptyStr]
  refine ⟨hmain, fun fitness_level fitness_goals => ?_⟩
  simp [appUpdateFitness, hmain, pyIsEmptyStr]

/-- Claim C1 witness: the amended theorem applied at a concrete
keyword-free window. -/
theorem extract_no_keyword_yields_fixed_defaults_witness :
    extract_fitness_info [Msg.human "hi there"] = ("intermediate", "general fitness")
    ∧ appUpdateFitness "beginner" "build muscle" [Msg.human "hi there"]
        = ("intermediate", "general fitness") :=
  ⟨(extract_no_keyword_yields_fixed_defaults [Msg.human "hi there"] (by decide)).1,
   (extract_no_keyword_yields_fixed_defaults [Msg.human "hi there"] (by decide)).2
      "beginner" "build muscle"⟩

/-- Claim C10: the extractor examines only user-role (`HumanMessage`) entries
within the 5-message window — system, assistant and tool messages never affect
the fold — and within a single message the keyword checks are ordered if/elif
chains: "beginner" takes precedence over "intermediate" over "advanced", and
"muscle"/"strength" over "weight"/"lose"/"fat" over "endurance"/"cardio". -/
theorem extract_human_only_and_keyword_precedence :
    (∀ messages : List Msg,
      (extractWindow messages).foldl extractStep ("", "")
        = ((extractWindow messages).filter isHumanMsg).foldl extractStep ("", ""))
    ∧ (∀ acc : String × String, ∀ c : String,
        (strContains (pyLower c) "beginner" = true →
          (extractStep acc (Msg.human c)).1 = "beginner")
        ∧ (strContains (pyLower c) "beginner" = false →
            strContains (pyLower c) "intermediate" = true →
          (extractStep acc (Msg.human c)).1 = "intermediate")
        ∧ (strContains (pyLower c) "beginner" = false →
            strContains (pyLower c) "intermediate" = false →
            strContains (pyLower c) "advanced" = true →
          (extractStep acc (Msg.human c)).1 = "advanced")
        ∧ ((strContains (pyLower c) "muscle" = true ∨ strContains (pyLower c) "strength" = true) →
          (extractStep acc (Msg.human c)).2 = "build muscle")
        ∧ (strContains (pyLower c) "muscle" = false →
            strContains (pyLower c) "strength" = false →
            (strContains (pyLower c) "weight" = true ∨ strContains (pyLower c) "lose" = true ∨
              strContains (pyLower c) "fat" = true) →
          (extractStep acc (Msg.human c)).2 = "lose weight")
        ∧ (strContains (pyLower c) "muscle" = false →
            strContains (pyLower c) "strength" = false →
            strContains (pyLower c) "weight" = false →
            strContains (pyLower c) "lose" = false →
            strContains (pyLower c) "fat" = false →
            (strContains (pyLower c) "endurance" = true ∨
              strContains (pyLower c) "cardio" = true) →
          (extractStep acc (Msg.human c)).2 = "improve endurance")) := by
  refine ⟨fun messages => foldl_extractStep_filter _ _, fun acc c => ?_⟩
  refine ⟨fun h => by simp [extractStep, h],
    fun h1 h2 => by simp [extractStep, h1, h2],
    fun h1 h2 h3 => by simp [extractStep, h1, h2, h3],
    fun h => ?_, fun h1 h2 h => ?_, fun h1 h2 h3 h4 h5 h => ?_⟩
  · rcases h with h | h <;> simp [extractStep, h]
  · rcases h with h | h | h <;> simp [extractStep, h1, h2, h]
  · rcases h with h | h <;> simp [extractStep, h1, h2, h3, h4, h5, h]

/-- Claim C10 witness: with several level keywords in one message "beginner"
wins, and with several goal keywords "strength" (build muscle) wins. -/
theorem extract_human_only_and_keyword_precedence_witness :
    (extractStep ("", "") (Msg.human "An advanced Intermediate BEGINNER")).1 = "beginner"
    ∧ (extractStep ("", "") (Msg.human "cardio to lose fat and build Strength")).2
        = "build muscle" :=
  ⟨(extract_human_only_and_keyword_precedence.2 ("", "")
      "An advanced Intermediate BEGINNER").1 (by decide),
   (extract_human_only_and_keyword_precedence.2 ("", "")
      "cardio to lose fat and build Strength").2.2.2.1 (Or.inr (by decide))⟩

/-- Does consumption of a stream continue past this line (it is skipped as
falsy, or parses to a chunk without the `done` marker)? -/
def lineContinues : StreamLine → Bool
  | .empty => true
  | .malformed _ => false
  | .parsed c => !c.done

theorem consumeChatLines_malformed (pre : List StreamLine) (raw : String)
    (rest : List StreamLine) (parts : List String) (h : pre.all lineContinues = true) :
    consumeChatLines (pre ++ .malformed raw :: rest) parts
      = .error (.jsonDecodeError raw) := by
  induction pre generalizing parts with
  | nil => rfl
  | cons l pre ih =>
    rw [List.all_cons, Bool.and_eq_true] at h
    cases l with
    | empty =>
      rw [List.cons_append]
      exact ih parts h.2
    | malformed r => exact absurd h.1 (by simp [lineContinues])
    | parsed c =>
      have hd : c.done = false := by simpa [lineContinues] using h.1
      rw [List.cons_append]
      simp only [consumeChatLines, hd, Bool.false_eq_true, if_false]
      exact ih _ h.2

theorem consumeToolLines_malformed (pre : List StreamLine) (raw : String)
    (rest : List StreamLine) (parts : List String) (tc : Option (List ToolCall))
    (h : pre.all lineContinues = true) :
    consumeToolLines (pre ++ .malformed raw :: rest) parts tc
      = .error (.jsonDecodeError raw) := by
  induction pre generalizing parts tc with
  | nil => rfl
  | cons l pre ih =>
    rw [List.all_cons, Bool.and_eq_true] at h
    cases l with
    | empty =>
      rw [List.cons_append]
      exact ih parts tc h.2
    | malformed r => exact absurd h.1 (by simp [lineContinues])
    | parsed c =>
      have hd : c.done = false := by simpa [lineContinues] using h.1
      rw [List.cons_append]
      simp only [consumeToolLines, hd, Bool.false_eq_true, if_false]
      exact ih _ _ h.2

/-- Claim C2 counterexample: a stream with a non-parseable chunk line between
two good chunks.  Were the malformed chunk skipped, the result would be
`ok "Hello!"` (second conjunct); instead the `json.loads` error escapes and
the whole request fails (first and third conjuncts). -/
theorem malformed_chunk_fatal_counterexample :
    consumeChatLines [.parsed { content := some "Hello" }, .malformed "oops",
        .parsed { content := some "!", done := true }] []
      = .error (.jsonDecodeError "oops")
    ∧ consumeChatLines [.parsed { content := some "Hello" },
        .parsed { content := some "!", done := true }] [] = .ok "Hello!"
    ∧ consumeChatLines [.parsed { content := some "Hello" }, .malformed "oops",
        .parsed { content := some "!", done := true }] []
      ≠ .ok "Hello!" := by
  decide

/-- Claim C2 amended: a non-parseable stream chunk line is fatal, not skipped:
in both client loops, whenever consumption reaches a malformed line (every
earlier line is either falsy — skipped — or a chunk without the `done`
marker), the `json.loads` error propagates and aborts the whole request.
Only falsy (empty) lines are skipped. -/
theorem malformed_chunk_aborts_request (pre : List StreamLine) (raw : String)
    (rest : List StreamLine) (h : pre.all lineContinues = true) :
    consumeChatLines (pre ++ .malformed raw :: rest) []
      = .error (.jsonDecodeError raw)
    ∧ consumeToolLines (pre ++ .malformed raw :: rest) [] none
      = .error (.jsonDecodeError raw) :=
  ⟨consumeChatLines_malformed pre raw rest [] h,
   consumeToolLines_malformed pre raw rest [] none h⟩

/-- Claim C2 witness: the amended theorem at a concrete stream. -/
theorem malformed_chunk_aborts_request_witness :
    consumeChatLines [.parsed { content := some "Hello" }, .malformed "oops",
        .parsed { content := some "!", done := true }] []
      = .error (.jsonDecodeError "oops")
    ∧ consumeToolLines [.parsed { content := some "Hello" }, .malformed "oops",
        .parsed { content := some "!", done := true }] [] none
      = .error (.jsonDecodeError "oops") :=
  malformed_chunk_aborts_request [.parsed { content := some "Hello" }] "oops"
    [.parsed { content := some "!", done := true }] (by decide)

theorem roleOf_ne_system (m : Msg) (h : isSystemMsg m = false) :
    (roleOf m == "system") = false := by
  cases m <;> first | rfl | simp [isSystemMsg] at h

theorem payload_filter_system_nil (l : List Msg)
    (h : l.all (fun m => !(isSystemMsg m)) = true) :
    ((l.map fun m => (⟨roleOf m, contentOf m⟩ : PayloadMsg)).filter
      fun m => m.role == "system") = [] := by
  induction l with
  | nil => rfl
  | cons m rest ih =>
    rw [List.all_cons, Bool.and_eq_true] at h
    have hr := roleOf_ne_system m (by simpa using h.1)
    simp only [List.map_cons, List.filter_cons]
    rw [ih h.2]
    simp [hr]

/-- Six history messages with no system-role entry, as accumulated by normal
turns (the console loop appends user messages, the nodes assistant/tool
messages; the fresh system message of `chat_node` is never persisted). -/
def sixMsgHistory : List Msg :=
  [.human "hi", .ai "hello!", .human "what should I eat",
   .ai "protein", .human "thanks", .ai "anytime"]

/-- Claim C3 counterexample: with the default `max_context_messages = 6` and a
six-message history (none of them system-role), the single request issued by a
keyword-mode DirectChat turn contains zero system-role messages — the freshly
prepended system message is cut off by the `messages[-6:]` window applied
after prepending, so the request does not consist of the system message
followed by the windowed history. -/
theorem one_system_message_counterexample :
    (chat_node 6 false (fun _ _ => .ok []) (fun _ => none)
        ⟨sixMsgHistory, "", ""⟩).calls.map
      (fun call => (call.payload.filter fun m => m.role == "system").length) = [0] := by
  decide

/-- Claim C3 amended: a DirectChat turn windows *after* prepending the fresh
system message: the request payload is the `messages[-max_context_messages:]`
slice of (system message + history).  For a history (without system-role
entries) shorter than the window — and likewise when the configured window is
0, where CPython's `[-0:]` slice keeps the entire list — the request is
exactly the system message followed by the full history and contains exactly
one system-role message; once the window is positive and the history reaches
its size, the system message is dropped and the request contains no
system-role message at all. -/
theorem chat_request_system_message_count (maxCtx : Nat) (state : AgentState)
    (h : state.messages.all (fun m => !(isSystemMsg m)) = true) :
    (state.messages.length + 1 ≤ maxCtx →
      buildPayloadMessages maxCtx (chatMsgs state)
        = (⟨"system", system_content state⟩ : PayloadMsg)
            :: (state.messages.map fun m => (⟨roleOf m, contentOf m⟩ : PayloadMsg))
      ∧ ((buildPayloadMessages maxCtx (chatMsgs state)).filter
          fun m => m.role == "system").length = 1)
    ∧ (maxCtx = 0 →
      buildPayloadMessages maxCtx (chatMsgs state)
        = (⟨"system", system_content state⟩ : PayloadMsg)
            :: (state.messages.map fun m => (⟨roleOf m, contentOf m⟩ : PayloadMsg))
      ∧ ((buildPayloadMessages maxCtx (chatMsgs state)).filter
          fun m => m.role == "system").length = 1)
    ∧ (1 ≤ maxCtx → maxCtx ≤ state.messages.length →
      buildPayloadMessages maxCtx (chatMsgs state)
        = ((lastN maxCtx state.messages).map fun m => (⟨roleOf m, contentOf m⟩ : PayloadMsg))
      ∧ ((buildPayloadMessages maxCtx (chatMsgs state)).filter
          fun m => m.role == "system").length = 0) := by
  have hcount1 : buildPayloadMessages maxCtx (chatMsgs state)
      = (⟨"system", system_content state⟩ : PayloadMsg)
          :: (state.messages.map fun m => (⟨roleOf m, contentOf m⟩ : PayloadMsg)) →
      ((buildPayloadMessages maxCtx (chatMsgs state)).filter
        fun m => m.role == "system").length = 1 := by
    intro hp
    rw [hp]
    simp only [List.filter_cons]
    rw [payload_filter_system_nil state.messages h]
    simp
  refine ⟨fun hle => ?_, fun h0 => ?_, fun h1 hge => ?_⟩
  · have hne : maxCtx ≠ 0 := by omega
    have hpay : buildPayloadMessages maxCtx (chatMsgs state)
        = (⟨"system", system_content state⟩ : PayloadMsg)
            :: (state.messages.map fun m => (⟨roleOf m, contentOf m⟩ : PayloadMsg)) := by
      simp only [buildPayloadMessages, chatMsgs, lastN, List.length_cons]
      rw [if_neg hne, Nat.sub_eq_zero_of_le hle]
      rfl
    exact ⟨hpay, hcount1 hpay⟩
  · have hpay : buildPayloadMessages maxCtx (chatMsgs state)
        = (⟨"system", system_content state⟩ : PayloadMsg)
            :: (state.messages.map fun m => (⟨roleOf m, contentOf m⟩ : PayloadMsg)) := by
      subst h0
      simp only [buildPayloadMessages, chatMsgs, lastN]
      rw [if_pos trivial]
      rfl
    exact ⟨hpay, hcount1 hpay⟩
  · have hne : maxCtx ≠ 0 := by omega
    have hpay : buildPayloadMessages maxCtx (chatMsgs state)
        = (lastN maxCtx state.messages).map fun m => (⟨roleOf m, contentOf m⟩ : PayloadMsg) := by
      simp only [buildPayloadMessages, chatMsgs, lastN, List.length_cons]
      rw [if_neg hne, if_neg hne]
      rw [show state.messages.length + 1 - maxCtx
          = (state.messages.length - maxCtx) + 1 from by omega]
      rw [List.drop_succ_cons]
    refine ⟨hpay, ?_⟩
    rw [hpay]
    have hall : (lastN maxCtx state.messages).all (fun m => !(isSystemMsg m)) = true := by
      rw [List.all_eq_true] at h ⊢
      intro x hx
      apply h
      unfold lastN at hx
      rw [if_neg hne] at hx
      exact List.mem_of_mem_drop hx
    rw [payload_filter_system_nil _ hall]
    rfl

/-- Claim C3 witness: the amended theorem at a two-message history with window
6 (one system-role message), at the six-message history with window 0 — the
whole-list slice — (one), and at the six-message history with window 6
(none). -/
theorem chat_request_system_message_count_witness :
    ((buildPayloadMessages 6 (chatMsgs ⟨[Msg.human "hi", Msg.ai "hello!"], "", ""⟩)).filter
      fun m => m.role == "system").length = 1
    ∧ ((buildPayloadMessages 0 (chatMsgs ⟨sixMsgHistory, "", ""⟩)).filter
      fun m => m.role == "system").length = 1
    ∧ ((buildPayloadMessages 6 (chatMsgs ⟨sixMsgHistory, "", ""⟩)).filter
      fun m => m.role == "system").length = 0 :=
  ⟨((chat_request_system_message_count 6 ⟨[Msg.human "hi", Msg.ai "hello!"], "", ""⟩
      (by decide)).1 (by decide)).2,
   ((chat_request_system_message_count 0 ⟨sixMsgHistory, "", ""⟩
      (by decide)).2.1 rfl).2,
   ((chat_request_system_message_count 6 ⟨sixMsgHistory, "", ""⟩
      (by decide)).2.2 (by decide) (by decide)).2⟩

theorem ollama_chat_req (maxCtx : Nat) (oracle : Oracle) (messages : List Msg) :
    (ollama_chat maxCtx oracle messages).2
      = ⟨false, buildPayloadMessages maxCtx messages⟩ := by
  simp only [ollama_chat]
  cases oracle false (buildPayloadMessages maxCtx messages) <;> rfl

theorem ollama_chat_with_tools_req (maxCtx : Nat) (oracle : Oracle) (messages : List Msg) :
    (ollama_chat_with_tools maxCtx oracle messages).2
      = ⟨true, buildPayloadMessages maxCtx messages⟩ := by
  simp only [ollama_chat_with_tools]
  cases oracle true (buildPayloadMessages maxCtx messages) <;> rfl

theorem ollama_chat_of_oracle_error (maxCtx : Nat) (oracle : Oracle) (messages : List Msg)
    (e : Err) (h : oracle false (buildPayloadMessages maxCtx messages) = .error e) :
    (ollama_chat maxCtx oracle messages).1 = .error e := by
  simp only [ollama_chat]
  rw [h]

theorem ollama_chat_with_tools_of_oracle_error (maxCtx : Nat) (oracle : Oracle)
    (messages : List Msg) (e : Err)
    (h : oracle true (buildPayloadMessages maxCtx messages) = .error e) :
    (ollama_chat_with_tools maxCtx oracle messages).1 = .error e := by
  simp only [ollama_chat_with_tools]
  rw [h]

theorem ollama_chat_of_oracle_ok (maxCtx : Nat) (oracle : Oracle) (messages : List Msg)
    (lines : List StreamLine)
    (h : oracle false (buildPayloadMessages maxCtx messages) = .ok lines) :
    (ollama_chat maxCtx oracle messages).1 = consumeChatLines lines [] := by
  simp only [ollama_chat]
  rw [h]

theorem ollama_chat_with_tools_of_oracle_ok (maxCtx : Nat) (oracle : Oracle)
    (messages : List Msg) (lines : List StreamLine)
    (h : oracle true (buildPayloadMessages maxCtx messages) = .ok lines) :
    (ollama_chat_with_tools maxCtx oracle messages).1 = consumeToolLines lines [] none := by
  simp only [ollama_chat_with_tools]
  rw [h]

theorem native_path_of_with_tools_error (maxCtx : Nat) (oracle : Oracle)
    (decodeArgs : ArgDecoder) (state : AgentState) (msgs : List Msg) (user_text : String)
    (e : Err) (h : (ollama_chat_with_tools maxCtx oracle msgs).1 = .error e) :
    native_path maxCtx oracle decodeArgs state msgs user_text
      = (.error e, [⟨true, buildPayloadMessages maxCtx msgs⟩]) := by
  simp only [native_path]
  rw [h, ollama_chat_with_tools_req]

theorem native_path_of_no_truthy_calls (maxCtx : Nat) (oracle : Oracle)
    (decodeArgs : ArgDecoder) (state : AgentState) (msgs : List Msg) (user_text : String)
    (content : String) (tool_calls : Option (List ToolCall))
    (h : (ollama_chat_with_tools maxCtx oracle msgs).1 = .ok (content, tool_calls))
    (htc : toolCallsTruthy tool_calls = false) :
    native_path maxCtx oracle decodeArgs state msgs user_text
      = (.ok (keywordDispatch state user_text content),
         [⟨true, buildPayloadMessages maxCtx msgs⟩]) := by
  simp only [native_path]
  rw [h, ollama_chat_with_tools_req]
  simp [htc]

theorem native_path_of_empty_out (maxCtx : Nat) (oracle : Oracle)
    (decodeArgs : ArgDecoder) (state : AgentState) (msgs : List Msg) (user_text : String)
    (content : String) (tool_calls : Option (List ToolCall))
    (h : (ollama_chat_with_tools maxCtx oracle msgs).1 = .ok (content, tool_calls))
    (htc : toolCallsTruthy tool_calls = true)
    (hout : (tool_calls.getD []).filterMap (runToolCall state decodeArgs) = []) :
    native_path maxCtx oracle decodeArgs state msgs user_text
      = (.ok (keywordDispatch state user_text content),
         [⟨true, buildPayloadMessages maxCtx msgs⟩]) := by
  simp only [native_path]
  rw [h, ollama_chat_with_tools_req]
  simp [htc, hout]

theorem native_path_of_tools_executed (maxCtx : Nat) (oracle : Oracle)
    (decodeArgs : ArgDecoder) (state : AgentState) (msgs : List Msg) (user_text : String)
    (content : String) (tool_calls : Option (List ToolCall)) (final : String)
    (h : (ollama_chat_with_tools maxCtx oracle msgs).1 = .ok (content, tool_calls))
    (htc : toolCallsTruthy tool_calls = true)
    (hout : (tool_calls.getD []).filterMap (runToolCall state decodeArgs) ≠ [])
    (hfu : (ollama_chat maxCtx oracle
        (msgs ++ (if pyIsEmptyStr content then [] else [Msg.ai content])
          ++ (tool_calls.getD []).filterMap (runToolCall state decodeArgs))).1 = .ok final) :
    native_path maxCtx oracle decodeArgs state msgs user_text
      = (.ok ((tool_calls.getD []).filterMap (runToolCall state decodeArgs) ++ [Msg.ai final]),
         [⟨true, buildPayloadMessages maxCtx msgs⟩,
          ⟨false, buildPayloadMessages maxCtx
            (msgs ++ (if pyIsEmptyStr content then [] else [Msg.ai content])
              ++ (tool_calls.getD []).filterMap (runToolCall state decodeArgs))⟩]) := by
  have hie : ((tool_calls.getD []).filterMap (runToolCall state decodeArgs)).isEmpty = false := by
    cases hc : (tool_calls.getD []).filterMap (runToolCall state decodeArgs) with
    | nil => exact absurd hc hout
    | cons a l => rfl
  simp only [native_path]
  rw [h, ollama_chat_with_tools_req]
  simp only [htc, if_true, hie, Bool.false_eq_true, if_false, hfu, ollama_chat_req]

theorem native_path_of_followup_error (maxCtx : Nat) (oracle : Oracle)
    (decodeArgs : ArgDecoder) (state : AgentState) (msgs : List Msg) (user_text : String)
    (content : String) (tool_calls : Option (List ToolCall)) (e : Err)
    (h : (ollama_chat_with_tools maxCtx oracle msgs).1 = .ok (content, tool_calls))
    (htc : toolCallsTruthy tool_calls = true)
    (hout : (tool_calls.getD []).filterMap (runToolCall state decodeArgs) ≠ [])
    (hfu : (ollama_chat maxCtx oracle
        (msgs ++ (if pyIsEmptyStr content then [] else [Msg.ai content])
          ++ (tool_calls.getD []).filterMap (runToolCall state decodeArgs))).1 = .error e) :
    native_path maxCtx oracle decodeArgs state msgs user_text
      = (.error e,
         [⟨true, buildPayloadMessages maxCtx msgs⟩,
          ⟨false, buildPayloadMessages maxCtx
            (msgs ++ (if pyIsEmptyStr content then [] else [Msg.ai content])
              ++ (tool_calls.getD []).filterMap (runToolCall state decodeArgs))⟩]) := by
  have hie : ((tool_calls.getD []).filterMap (runToolCall state decodeArgs)).isEmpty = false := by
    cases hc : (tool_calls.getD []).filterMap (runToolCall state decodeArgs) with
    | nil => exact absurd hc hout
    | cons a l => rfl
  simp only [native_path]
  rw [h, ollama_chat_with_tools_req]
  simp only [htc, if_true, hie, Bool.false_eq_true, if_false, hfu, ollama_chat_req]

theorem chat_node_native_of_ok (maxCtx : Nat) (oracle : Oracle) (decodeArgs : ArgDecoder)
    (state : AgentState) (out : List Msg) (log : List InferenceCall)
    (h : native_path maxCtx oracle decodeArgs state (chatMsgs state)
        (pyLower (latest_user_text state.messages)) = (.ok out, log)) :
    chat_node maxCtx true oracle decodeArgs state = ⟨.ok out, log⟩ := by
  simp only [chat_node]
  rw [h]
  rfl

theorem chat_node_native_of_error (maxCtx : Nat) (oracle : Oracle) (decodeArgs : ArgDecoder)
    (state : AgentState) (e : Err) (log : List InferenceCall)
    (h : native_path maxCtx oracle decodeArgs state (chatMsgs state)
        (pyLower (latest_user_text state.messages)) = (.error e, log)) :
    chat_node maxCtx true oracle decodeArgs state
      = ⟨(ollama_chat maxCtx oracle (chatMsgs state)).1.map fun content => [Msg.ai content],
         log ++ [⟨false, buildPayloadMessages maxCtx (chatMsgs state)⟩]⟩ := by
  simp only [chat_node]
  rw [h, ollama_chat_req]
  rfl

theorem chat_node_plain (maxCtx : Nat) (oracle : Oracle) (decodeArgs : ArgDecoder)
    (state : AgentState) :
    chat_node maxCtx false oracle decodeArgs state
      = ⟨(ollama_chat maxCtx oracle (chatMsgs state)).1.map fun content => [Msg.ai content],
         [⟨false, buildPayloadMessages maxCtx (chatMsgs state)⟩]⟩ := by
  simp only [chat_node]
  rw [ollama_chat_req]
  rfl

/-- Claim C8: when the base chat inference call fails at the transport level,
the failure propagates to the caller as the distinguished inference failure,
unchanged, and the turn produces no state update: the failed turn appends no
assistant, tool, or partial message to the session history. -/
theorem base_chat_failure_propagates (maxCtx : Nat) (oracle : Oracle)
    (decodeArgs : ArgDecoder) (state : AgentState) (cause : String)
    (h : oracle false (buildPayloadMessages maxCtx (chatMsgs state))
        = .error (.inferenceFailure cause)) :
    (chat_node maxCtx false oracle decodeArgs state).result
      = .error (.inferenceFailure cause)
    ∧ applyChatTurn maxCtx false oracle decodeArgs state
      = .error (.inferenceFailure cause)
    ∧ ∀ state' : AgentState,
        applyChatTurn maxCtx false oracle decodeArgs state ≠ .ok state' := by
  have hres : (chat_node maxCtx false oracle decodeArgs state).result
      = .error (.inferenceFailure cause) := by
    rw [chat_node_plain, ollama_chat_of_oracle_error maxCtx oracle (chatMsgs state) _ h]
    rfl
  have happ : applyChatTurn maxCtx false oracle decodeArgs state
      = .error (.inferenceFailure cause) := by
    unfold applyChatTurn
    rw [hres]
    rfl
  exact ⟨hres, happ, fun state' hc => by simp [happ] at hc⟩

/-- Claim C8 witness: a concrete transport failure with a non-empty prior
history; no update is produced. -/
theorem base_chat_failure_propagates_witness :
    (chat_node 6 false (fun _ _ => .error (.inferenceFailure "connection refused"))
        (fun _ => none) ⟨[Msg.human "hello"], "beginner", "build muscle"⟩).result
      = .error (.inferenceFailure "connection refused")
    ∧ applyChatTurn 6 false (fun _ _ => .error (.inferenceFailure "connection refused"))
        (fun _ => none) ⟨[Msg.human "hello"], "beginner", "build muscle"⟩
      = .error (.inferenceFailure "connection refused") :=
  ⟨(base_chat_failure_propagates 6 _ _ _ "connection refused" rfl).1,
   (base_chat_failure_propagates 6 _ _ _ "connection refused" rfl).2.1⟩

/-- Claim C7: in native tool-calling mode, any exception escaping the
tool-calling path — a transport failure of the tool-enabled inference call, a
malformed chunk in its stream, or a failure of the follow-up query after
tools executed — abandons the native path for the turn, and the orchestrator
falls back to a plain, tool-schema-less chat call over the same system
message and history, whose best-effort reply becomes the assistant message. -/
theorem native_tool_path_falls_back_to_plain_chat (maxCtx : Nat) (oracle : Oracle)
    (decodeArgs : ArgDecoder) (state : AgentState) :
    (∀ e : Err, oracle true (buildPayloadMessages maxCtx (chatMsgs state)) = .error e →
      chat_node maxCtx true oracle decodeArgs state
        = ⟨(ollama_chat maxCtx oracle (chatMsgs state)).1.map fun content => [Msg.ai content],
           [⟨true, buildPayloadMessages maxCtx (chatMsgs state)⟩,
            ⟨false, buildPayloadMessages maxCtx (chatMsgs state)⟩]⟩)
    ∧ (∀ (lines : List StreamLine) (e : Err),
        oracle true (buildPayloadMessages maxCtx (chatMsgs state)) = .ok lines →
        consumeToolLines lines [] none = .error e →
      chat_node maxCtx true oracle decodeArgs state
        = ⟨(ollama_chat maxCtx oracle (chatMsgs state)).1.map fun content => [Msg.ai content],
           [⟨true, buildPayloadMessages maxCtx (chatMsgs state)⟩,
            ⟨false, buildPayloadMessages maxCtx (chatMsgs state)⟩]⟩)
    ∧ (∀ (lines : List StreamLine) (content : String) (tool_calls : Option (List ToolCall))
          (e : Err),
        oracle true (buildPayloadMessages maxCtx (chatMsgs state)) = .ok lines →
        consumeToolLines lines [] none = .ok (content, tool_calls) →
        toolCallsTruthy tool_calls = true →
        (tool_calls.getD []).filterMap (runToolCall state decodeArgs) ≠ [] →
        (ollama_chat maxCtx oracle
            (chatMsgs state ++ (if pyIsEmptyStr content then [] else [Msg.ai content])
              ++ (tool_calls.getD []).filterMap (runToolCall state decodeArgs))).1
          = .error e →
      chat_node maxCtx true oracle decodeArgs state
        = ⟨(ollama_chat maxCtx oracle (chatMsgs state)).1.map fun content => [Msg.ai content],
           [⟨true, buildPayloadMessages maxCtx (chatMsgs state)⟩,
            ⟨false, buildPayloadMessages maxCtx
              (chatMsgs state ++ (if pyIsEmptyStr content then [] else [Msg.ai content])
                ++ (tool_calls.getD []).filterMap (runToolCall state decodeArgs))⟩,
            ⟨false, buildPayloadMessages maxCtx (chatMsgs state)⟩]⟩) := by
  refine ⟨fun e h => ?_, fun lines e h1 h2 => ?_,
    fun lines content tool_calls e h1 h2 h3 h4 h5 => ?_⟩
  · exact chat_node_native_of_error _ _ _ _ _ _
      (native_path_of_with_tools_error _ _ _ _ _ _ _
        (ollama_chat_with_tools_of_oracle_error _ _ _ _ h))
  · exact chat_node_native_of_error _ _ _ _ _ _
      (native_path_of_with_tools_error _ _ _ _ _ _ _
        (by rw [ollama_chat_with_tools_of_oracle_ok _ _ _ _ h1]; exact h2))
  · exact chat_node_native_of_error _ _ _ _ _ _
      (native_path_of_followup_error _ _ _ _ _ _ _ _ _
        (by rw [ollama_chat_with_tools_of_oracle_ok _ _ _ _ h1]; exact h2) h3 h4 h5)

/-- Claim C7 witness: a concrete transport failure of the tool-enabled call
falls back to the plain chat reply. -/
theorem native_tool_path_falls_back_witness :
    chat_node 6 true
        (fun withTools _ =>
          if withTools then .error (.inferenceFailure "tools unsupported")
          else .ok [.parsed { content := some "plain reply", done := true }])
        (fun _ => none) ⟨[Msg.human "hello"], "", ""⟩
      = ⟨(ollama_chat 6
            (fun withTools _ =>
              if withTools then .error (.inferenceFailure "tools unsupported")
              else .ok [.parsed { content := some "plain reply", done := true }])
            (chatMsgs ⟨[Msg.human "hello"], "", ""⟩)).1.map fun content => [Msg.ai content],
         [⟨true, buildPayloadMessages 6 (chatMsgs ⟨[Msg.human "hello"], "", ""⟩)⟩,
          ⟨false, buildPayloadMessages 6 (chatMsgs ⟨[Msg.human "hello"], "", ""⟩)⟩]⟩ :=
  (native_tool_path_falls_back_to_plain_chat 6 _ _ _).1
    (.inferenceFailure "tools unsupported") rfl

/-- The two names registered in the tool dispatch of `chat_node`. -/
def isRegisteredToolName : Option String → Bool
  | some s => s == "generate_workout_plan" || s == "generate_progress_report"
  | none => false

theorem runToolCall_of_registered (state : AgentState) (decodeArgs : ArgDecoder)
    (c : ToolCall) (h : isRegisteredToolName c.fnName = true) :
    (runToolCall state decodeArgs c).isSome = true := by
  cases hf : c.fnName with
  | none => rw [hf] at h; exact absurd h (by decide)
  | some s =>
    rw [hf] at h
    simp only [isRegisteredToolName, Bool.or_eq_true] at h
    rcases h with h | h
    · simp [runToolCall, hf, h]
    · have hs : s = "generate_progress_report" := by simpa using h
      subst hs
      simp [runToolCall, hf]

theorem runToolCall_unregistered (state : AgentState) (decodeArgs : ArgDecoder)
    (c : ToolCall) (h : isRegisteredToolName c.fnName = false) :
    runToolCall state decodeArgs c = none := by
  cases hf : c.fnName with
  | none => simp [runToolCall, hf]
  | some s =>
    rw [hf] at h
    simp only [isRegisteredToolName, Bool.or_eq_false_iff] at h
    simp [runToolCall, hf, h.1, h.2]

theorem runToolCall_shape (state : AgentState) (decodeArgs : ArgDecoder)
    (c : ToolCall) (m : Msg) (h : runToolCall state decodeArgs c = some m) :
    isToolMsg m = true ∧ ∃ s, m = Msg.tool s c.id := by
  cases hf : c.fnName with
  | none => simp [runToolCall, hf] at h
  | some s =>
    simp only [runToolCall, hf] at h
    split at h
    · exact ⟨by rw [← Option.some.inj h]; rfl, _, (Option.some.inj h).symm⟩
    · split at h
      · exact ⟨by rw [← Option.some.inj h]; rfl, _, (Option.some.inj h).symm⟩
      · exact Option.noConfusion h

theorem runToolCall_progress (state : AgentState) (decodeArgs : ArgDecoder)
    (c : ToolCall) (h : c.fnName = some "generate_progress_report") :
    runToolCall state decodeArgs c
      = some (Msg.tool generate_progress_report.1.message c.id) := by
  simp only [runToolCall, h]
  rfl

theorem keywordDispatch_singleton (state : AgentState) (user_text content : String) :
    ∃ s, keywordDispatch state user_text content = [Msg.ai s] := by
  unfold keywordDispatch
  split
  · exact ⟨_, rfl⟩
  · split
    · exact ⟨_, rfl⟩
    · exact ⟨_, rfl⟩

/-- Claim C5: in native mode, when the tool-enabled response carries tool-call
directives and at least one names a registered tool, the orchestrator executes
the directives in order, producing (via `filterMap`, which preserves directive
order) exactly one tool-role message per executed call — each carrying the
tool's summary and the originating call id — performs exactly one follow-up
inference call without tool schemas over the original messages plus the
model's own non-empty text plus the tool-role messages, and the final
assistant reply is that follow-up's text, placed after the tool-role
messages in the returned message set. -/
theorem native_tool_calls_executed_in_order (maxCtx : Nat) (oracle : Oracle)
    (decodeArgs : ArgDecoder) (state : AgentState) (lines : List StreamLine)
    (content final : String) (calls : List ToolCall)
    (h1 : oracle true (buildPayloadMessages maxCtx (chatMsgs state)) = .ok lines)
    (h2 : consumeToolLines lines [] none = .ok (content, some calls))
    (h3 : calls ≠ [])
    (h4 : ∃ c ∈ calls, isRegisteredToolName c.fnName = true)
    (h5 : (ollama_chat maxCtx oracle
        (chatMsgs state ++ (if pyIsEmptyStr content then [] else [Msg.ai content])
          ++ calls.filterMap (runToolCall state decodeArgs))).1 = .ok final) :
    (chat_node maxCtx true oracle decodeArgs state).result
      = .ok (calls.filterMap (runToolCall state decodeArgs) ++ [Msg.ai final])
    ∧ (chat_node maxCtx true oracle decodeArgs state).calls
      = [⟨true, buildPayloadMessages maxCtx (chatMsgs state)⟩,
         ⟨false, buildPayloadMessages maxCtx
           (chatMsgs state ++ (if pyIsEmptyStr content then [] else [Msg.ai content])
             ++ calls.filterMap (runToolCall state decodeArgs))⟩]
    ∧ ((chat_node maxCtx true oracle decodeArgs state).calls.filter
        fun c => !c.withTools).length = 1
    ∧ (∀ m ∈ calls.filterMap (runToolCall state decodeArgs), isToolMsg m = true)
    ∧ (∀ c ∈ calls, c.fnName = some "generate_progress_report" →
        runToolCall state decodeArgs c
          = some (Msg.tool generate_progress_report.1.message c.id)) := by
  have htc : toolCallsTruthy (some calls) = true := by
    cases calls with
    | nil => exact absurd rfl h3
    | cons a l => rfl
  have hout : calls.filterMap (runToolCall state decodeArgs) ≠ [] := by
    intro hnil
    obtain ⟨c, hc, hreg⟩ := h4
    have hnone : runToolCall state decodeArgs c = none := by
      rw [List.filterMap_eq_nil_iff] at hnil
      exact hnil c hc
    have := runToolCall_of_registered state decodeArgs c hreg
    rw [hnone] at this
    exact Bool.noConfusion this
  have hnp := native_path_of_tools_executed maxCtx oracle decodeArgs state
    (chatMsgs state) (pyLower (latest_user_text state.messages)) content (some calls) final
    (by rw [ollama_chat_with_tools_of_oracle_ok _ _ _ _ h1]; exact h2) htc hout h5
  have hcn := chat_node_native_of_ok _ _ _ _ _ _ hnp
  refine ⟨?_, ?_, ?_, ?_, ?_⟩
  · rw [hcn]
    rfl
  · rw [hcn]
    rfl
  · rw [hcn]
    rfl
  · intro m hm
    obtain ⟨c, _, hrc⟩ := List.mem_filterMap.1 hm
    exact (runToolCall_shape state decodeArgs c m hrc).1
  · intro c _ hfn
    exact runToolCall_progress state decodeArgs c hfn

def w5oracle : Oracle := fun withTools _ =>
  if withTools then
    .ok [.parsed { tool_calls := some [⟨"c1", some "generate_progress_report", .obj []⟩],
                   done := true }]
  else .ok [.parsed { content := some "All done!", done := true }]

def w5state : AgentState := ⟨[Msg.human "hello there"], "", ""⟩

def w5calls : List ToolCall := [⟨"c1", some "generate_progress_report", .obj []⟩]

/-- Claim C5 witness: one progress-report directive yields the tool-role
message (with the tool summary and call id) followed by the follow-up reply,
with exactly one tool-enabled and one tool-less request. -/
theorem native_tool_calls_executed_in_order_witness :
    (chat_node 6 true w5oracle (fun _ => none) w5state).result
      = .ok (w5calls.filterMap (runToolCall w5state (fun _ => none)) ++ [Msg.ai "All done!"])
    ∧ ((chat_node 6 true w5oracle (fun _ => none) w5state).calls.filter
        fun c => !c.withTools).length = 1 :=
  ⟨(native_tool_calls_executed_in_order 6 w5oracle (fun _ => none) w5state _ "" "All done!"
      w5calls rfl rfl (by decide)
      ⟨⟨"c1", some "generate_progress_report", .obj []⟩, by decide, by decide⟩ rfl).1,
   (native_tool_calls_executed_in_order 6 w5oracle (fun _ => none) w5state _ "" "All done!"
      w5calls rfl rfl (by decide)
      ⟨⟨"c1", some "generate_progress_report", .obj []⟩, by decide, by decide⟩ rfl).2.2.1⟩

/-- Claim C6: in native mode, a tool-call directive naming an unregistered
tool is ignored without error: it produces no tool-role message, and when no
directive named a registered tool no tool executes (empty `filterMap`), no
follow-up request is made, and the turn still completes via a non-tool reply
path — a single assistant message from the keyword fall-through. -/
theorem unregistered_tool_directive_ignored (maxCtx : Nat) (oracle : Oracle)
    (decodeArgs : ArgDecoder) (state : AgentState) (lines : List StreamLine)
    (content : String) (calls : List ToolCall)
    (h1 : oracle true (buildPayloadMessages maxCtx (chatMsgs state)) = .ok lines)
    (h2 : consumeToolLines lines [] none = .ok (content, some calls))
    (h3 : calls ≠ [])
    (h4 : ∀ c ∈ calls, isRegisteredToolName c.fnName = false) :
    (∀ c ∈ calls, runToolCall state decodeArgs c = none)
    ∧ calls.filterMap (runToolCall state decodeArgs) = []
    ∧ (∃ s, (chat_node maxCtx true oracle decodeArgs state).result = .ok [Msg.ai s])
    ∧ (chat_node maxCtx true oracle decodeArgs state).calls
      = [⟨true, buildPayloadMessages maxCtx (chatMsgs state)⟩] := by
  have hnone : ∀ c ∈ calls, runToolCall state decodeArgs c = none :=
    fun c hc => runToolCall_unregistered state decodeArgs c (h4 c hc)
  have hfm : calls.filterMap (runToolCall state decodeArgs) = [] :=
    List.filterMap_eq_nil_iff.2 hnone
  have htc : toolCallsTruthy (some calls) = true := by
    cases calls with
    | nil => exact absurd rfl h3
    | cons a l => rfl
  have hnp := native_path_of_empty_out maxCtx oracle decodeArgs state
    (chatMsgs state) (pyLower (latest_user_text state.messages)) content (some calls)
    (by rw [ollama_chat_with_tools_of_oracle_ok _ _ _ _ h1]; exact h2) htc hfm
  have hcn := chat_node_native_of_ok _ _ _ _ _ _ hnp
  refine ⟨hnone, hfm, ?_, ?_⟩
  · obtain ⟨s, hs⟩ := keywordDispatch_singleton state
      (pyLower (latest_user_text state.messages)) content
    exact ⟨s, by rw [hcn]; rw [show (⟨Except.ok (keywordDispatch state (pyLower (latest_user_text state.messages)) content), [⟨true, buildPayloadMessages maxCtx (chatMsgs state)⟩]⟩ : TurnOut).result = Except.ok (keywordDispatch state (pyLower (latest_user_text state.messages)) content) from rfl, hs]⟩
  · rw [hcn]

def w6oracle : Oracle := fun withTools _ =>
  if withTools then
    .ok [.parsed { content := some "Let me check.",
                   tool_calls := some [⟨"c9", some "make_coffee", .obj []⟩],
                   done := true }]
  else .ok [.parsed { content := some "unused", done := true }]

/-- Claim C6 witness: a hallucinated tool name produces no tool message, no
follow-up request, and a single assistant reply. -/
theorem unregistered_tool_directive_ignored_witness :
    (∃ s, (chat_node 6 true w6oracle (fun _ => none) w5state).result = .ok [Msg.ai s])
    ∧ (chat_node 6 true w6oracle (fun _ => none) w5state).calls
      = [⟨true, buildPayloadMessages 6 (chatMsgs w5state)⟩] :=
  ⟨(unregistered_tool_directive_ignored 6 w6oracle (fun _ => none) w5state _ "Let me check."
      [⟨"c9", some "make_coffee", .obj []⟩] rfl rfl (by decide) (by decide)).2.2.1,
   (unregistered_tool_directive_ignored 6 w6oracle (fun _ => none) w5state _ "Let me check."
      [⟨"c9", some "make_coffee", .obj []⟩] rfl rfl (by decide) (by decide)).2.2.2⟩

end GymBro
